import Mathlib

/-!
Verification of the Vanguard NIDS hybrid detection and alerting pipeline.

Shallow embedding of the core pipeline:
* `SignatureEngine.check_signatures` and the fixed rule set
  (src/backend/ml/models/hybrid.py, class SignatureEngine);
* `HybridDetectionEngine.detect`, the two-tier fusion policy
  (src/backend/ml/models/hybrid.py, lines 97-228);
* `DetectionEngine.detect_packet` error containment
  (src/backend/app/services/detection_engine.py);
* `FeatureExtractionService` window / flow feature extraction
  (src/backend/app/services/feature_extraction.py);
* `AlertManager` rate limiting, alert-type and description generation
  (src/backend/app/services/alert_manager.py).

Scores are modelled as rationals (Python floats used as real-valued scores);
timestamps are rationals measured in seconds; the wall-clock minute used by
the rate limiter is an integer minute index.  Python dicts whose keys may be
absent are modelled with `Option` fields; `dict.get(k, d)` becomes
`Option.getD`.  Python exceptions raised by a collaborator are modelled with
`Except`; machine-learning scoring oracles are opaque, so an oracle call is
modelled by its outcome: `some score` for a successful call, `none` for a
call that raised and was swallowed by the `try/except` around it.
-/

/-- A network packet record, as the dict consumed by the pipeline.
Fields mirror the keys the source actually reads; a missing dict key is
`none`. -/
structure Packet where
  src_ip : Option String := none
  dst_ip : Option String := none
  src_port : Option Int := none
  dst_port : Option Int := none
  protocol : Option String := none
  packet_size : Option ℚ := none
  tcp_flags : Option String := none
  timestamp : Option ℚ := none
  ip_ttl : Option ℚ := none
  ip_len : Option ℚ := none
  tcp_window : Option ℚ := none
deriving Repr, DecidableEq

/-- One signature rule: name, pure predicate over packet fields, severity,
confidence (src/backend/ml/models/hybrid.py, SignatureEngine.__init__). -/
structure SigRule where
  name : String
  pattern : Packet → Bool
  severity : String
  confidence : ℚ

/-- Rule 'port_scan': destination port in range(1, 1024) and size < 100
(`pkt.get('dst_port')` is `None` for a missing key and `None in range(...)`
is false). -/
def portScanRule : SigRule :=
  { name := "port_scan"
    pattern := fun pkt =>
      (match pkt.dst_port with
       | some d => decide (1 ≤ d ∧ d < 1024)
       | none => false)
      && decide (pkt.packet_size.getD 0 < 100)
    severity := "high", confidence := 8/10 }

/-- Rule 'syn_flood': tcp_flags == 'S' and size < 100. -/
def synFloodRule : SigRule :=
  { name := "syn_flood"
    pattern := fun pkt =>
      decide (pkt.tcp_flags = some "S") && decide (pkt.packet_size.getD 0 < 100)
    severity := "high", confidence := 85/100 }

/-- Rule 'large_packet': size > 1500. -/
def largePacketRule : SigRule :=
  { name := "large_packet"
    pattern := fun pkt => decide (pkt.packet_size.getD 0 > 1500)
    severity := "medium", confidence := 6/10 }

/-- Rule 'suspicious_port': destination port in [4444, 31337, 12345, 54321]. -/
def suspiciousPortRule : SigRule :=
  { name := "suspicious_port"
    pattern := fun pkt =>
      decide (pkt.dst_port = some 4444 ∨ pkt.dst_port = some 31337 ∨
              pkt.dst_port = some 12345 ∨ pkt.dst_port = some 54321)
    severity := "medium", confidence := 7/10 }

/-- Rule 'icmp_flood': protocol == 'ICMP' and size < 100. -/
def icmpFloodRule : SigRule :=
  { name := "icmp_flood"
    pattern := fun pkt =>
      decide (pkt.protocol = some "ICMP") && decide (pkt.packet_size.getD 0 < 100)
    severity := "medium", confidence := 65/100 }

/-- The fixed rule set, in registration (insertion) order.  Python 3.7+ dicts
iterate in insertion order, so the dict of rules is a list here. -/
def signatures : List SigRule :=
  [portScanRule, synFloodRule, largePacketRule, suspiciousPortRule, icmpFloodRule]

/-- `SignatureEngine.check_signatures`: scan the rules in registration order,
the first rule whose predicate holds wins; no match yields
`(False, 0.0, None)`.  (The `try/except` that skips a rule whose predicate
raises is vacuous here: the embedded predicates are total.) -/
def check_signatures (rules : List SigRule) (pkt : Packet) : Bool × ℚ × Option String :=
  match rules with
  | [] => (false, 0, none)
  | r :: rest => if r.pattern pkt then (true, r.confidence, some r.name) else check_signatures rest pkt

/-- The detection-result dict produced by `HybridDetectionEngine.detect`.
Defaults are the initial values of the `result` dict (hybrid.py lines
119-129).  `signature_name`, `error`, `source_ip`, `destination_ip` and
`protocol` are keys that `detect` itself never writes (they stay `none` =
absent); the last three are spliced in by the caller before alert creation
(background_tasks.py lines 70-77). -/
structure DetectionResult where
  is_malicious : Bool := false
  threat_score : ℚ := 0
  severity : String := "low"
  detection_method : String := "none"
  signature_match : Bool := false
  ml_prediction : ℚ := 0
  anomaly_score : ℚ := 0
  hybrid_score : ℚ := 0
  confidence : ℚ := 0
  signature_name : Option String := none
  error : Option String := none
  source_ip : Option String := none
  destination_ip : Option String := none
  protocol : Option String := none
deriving Repr, DecidableEq

/-- Severity bands shared by both tiers (hybrid.py lines 143-148 and
219-224). -/
def severityBand (s : ℚ) : String :=
  if s ≥ 8/10 then "high" else if s ≥ 6/10 then "medium" else "low"

/-- The tier-1 result (hybrid.py lines 134-150): high-confidence signature
match; note that `sig_name` is discarded and `ml_prediction`, `anomaly_score`
and `hybrid_score` keep their initial value 0. -/
def tier1Result (sigConf : ℚ) : DetectionResult :=
  { is_malicious := true
    signature_match := true
    threat_score := sigConf
    detection_method := "signature"
    confidence := sigConf
    severity := severityBand sigConf }

/-- The scores successfully produced by a family of oracle calls: a failing
call (`none`) contributes nothing (hybrid.py lines 153-184, the per-model
`try/except` bodies only append on success). -/
def collectScores (outs : List (Option ℚ)) : List ℚ :=
  outs.filterMap id

/-- `np.mean(scores) if scores else 0.0` (hybrid.py lines 187-188). -/
def meanScore (l : List ℚ) : ℚ :=
  if l = [] then 0 else l.sum / l.length

/-- The fused score of tier 2 (hybrid.py lines 186-205): weighted combination
0.6/0.4, then the low-confidence signature floor, then conflict
resolution. -/
def fusedScore (sigMal : Bool) (sigConf : ℚ) (mlOuts anomOuts : List (Option ℚ)) : ℚ :=
  let mlPrediction := meanScore (collectScores mlOuts)
  let anomalyScore := meanScore (collectScores anomOuts)
  let h0 := 6/10 * mlPrediction + 4/10 * anomalyScore
  let h1 := if sigMal = true then max h0 (sigConf * (1/2)) else h0
  if sigMal = true ∧ mlPrediction < 3/10 then (sigConf + h1) / 2
  else if sigMal = false ∧ mlPrediction > 7/10 then mlPrediction
  else h1

/-- The tier-2 result (hybrid.py lines 152-228): the final decision applied
to the fused score.  `is_malicious`, `detection_method` and `severity` are
only overwritten when the fused score reaches the hybrid-fusion threshold;
otherwise they keep their initial values. -/
def tier2Result (sigMal : Bool) (sigConf : ℚ) (mlOuts anomOuts : List (Option ℚ))
    (hybT : ℚ) : DetectionResult :=
  let mlPrediction := meanScore (collectScores mlOuts)
  let anomalyScore := meanScore (collectScores anomOuts)
  let h := fusedScore sigMal sigConf mlOuts anomOuts
  if h ≥ hybT then
    { is_malicious := true
      detection_method := if sigMal = true then "hybrid" else "ml"
      severity := severityBand h
      ml_prediction := mlPrediction
      anomaly_score := anomalyScore
      hybrid_score := h
      threat_score := h
      signature_match := sigMal
      confidence := h }
  else
    { is_malicious := false
      detection_method := "none"
      severity := "low"
      ml_prediction := mlPrediction
      anomaly_score := anomalyScore
      hybrid_score := h
      threat_score := h
      signature_match := sigMal
      confidence := h }

/-- `HybridDetectionEngine.detect` (hybrid.py lines 97-228), parameterized by
the two thresholds read from settings in `__init__` and by the outcomes of
the supervised / unsupervised oracle calls of tier 2. -/
def detect (sigT hybT : ℚ) (rules : List SigRule) (pkt : Packet)
    (mlOuts anomOuts : List (Option ℚ)) : DetectionResult :=
  let s := check_signatures rules pkt
  if s.1 = true ∧ s.2.1 ≥ sigT then tier1Result s.2.1
  else tier2Result s.1 s.2.1 mlOuts anomOuts hybT

/-- `DetectionEngine.detect_packet` (detection_engine.py lines 33-61):
`featRes` is the outcome of the `try` around feature extraction —
`Except.error e` models the extractor raising `e`, `Except.ok v` a feature
vector extracted successfully.  On failure the error is contained and a safe
default result tagged with the error is returned. -/
def detect_packet (sigT hybT : ℚ) (rules : List SigRule)
    (featRes : Except String (List ℚ)) (pkt : Packet)
    (mlOuts anomOuts : List (Option ℚ)) : DetectionResult :=
  match featRes with
  | .error e => { is_malicious := false, threat_score := 0, severity := "low", error := some e }
  | .ok _ => detect sigT hybT rules pkt mlOuts anomOuts

-- Configuration defaults (src/backend/app/config.py).
def SIGNATURE_CONFIDENCE_THRESHOLD : ℚ := 7/10
def ML_ANOMALY_THRESHOLD : ℚ := 6/10
def HYBRID_FUSION_THRESHOLD : ℚ := 65/100
def MAX_ALERTS_PER_MINUTE : Nat := 100
def FEATURE_WINDOW_SIZE : Nat := 100

/-! ### Feature extraction (src/backend/app/services/feature_extraction.py) -/

/-- `FeatureExtractionService._encode_protocol`: the protocol string is
upper-cased and looked up in the map {TCP:1, UDP:2, ICMP:3}, default 0 (the
lowercase key 'unknown' of the source map is unreachable after `.upper()`,
so only the default matters for it). -/
def encode_protocol (protocol : String) : Nat :=
  let u := protocol.toUpper
  if u = "TCP" then 1 else if u = "UDP" then 2 else if u = "ICMP" then 3 else 0

/-- `FeatureExtractionService._encode_tcp_flags`: OR the bit of each known
flag character into an integer; unknown characters contribute 0. -/
def encode_tcp_flags (flags : String) : Nat :=
  flags.toList.foldl
    (fun acc c =>
      acc ||| (if c = 'S' then 1 else if c = 'A' then 2 else if c = 'F' then 4
               else if c = 'R' then 8 else if c = 'P' then 16
               else if c = 'U' then 32 else 0))
    0

/-- The dict produced by `extract_basic_features`: size/ports default to 0
when absent, protocol defaults to 'unknown' (encoded 0); the IP/TCP extras
are present only when the packet carries them. -/
structure BasicFeatures where
  packet_size : ℚ
  src_port : Int
  dst_port : Int
  protocol : Nat
  ip_ttl : Option ℚ
  ip_len : Option ℚ
  tcp_flags : Option Nat
  tcp_window : Option ℚ
deriving Repr, DecidableEq

/-- `FeatureExtractionService.extract_basic_features`. -/
def extract_basic_features (pkt : Packet) : BasicFeatures :=
  { packet_size := pkt.packet_size.getD 0
    src_port := pkt.src_port.getD 0
    dst_port := pkt.dst_port.getD 0
    protocol := encode_protocol (pkt.protocol.getD "unknown")
    ip_ttl := pkt.ip_ttl
    ip_len := pkt.ip_len
    tcp_flags := pkt.tcp_flags.map encode_tcp_flags
    tcp_window := pkt.tcp_window }

/-- Window statistics over the recent-packet window
(`extract_statistical_features`).  `std_sq_packet_size` is the square of the
source's `std_packet_size` (`np.std` = population standard deviation; kept
squared so the value stays rational).  The source's `port_entropy`
(Shannon entropy, irrational-valued in general) is represented by the
filtered destination-port sample `dst_ports_sample` it is computed from. -/
structure StatFeatures where
  mean_packet_size : ℚ
  std_sq_packet_size : ℚ
  min_packet_size : ℚ
  max_packet_size : ℚ
  packet_count : Nat
  unique_dst_ports : Nat
  dst_ports_sample : List Int
deriving Repr, DecidableEq

def listMin (l : List ℚ) : ℚ :=
  match l with
  | [] => 0
  | h :: t => t.foldl min h

def listMax (l : List ℚ) : ℚ :=
  match l with
  | [] => 0
  | h :: t => t.foldl max h

/-- `FeatureExtractionService.extract_statistical_features`: for an empty
window the source returns an empty dict (all zeros here); otherwise the
sizes use `get('packet_size', 0)` and the port sample keeps only truthy
`dst_port` values (absent and 0 are both dropped by the truthiness test). -/
def extract_statistical_features (packet_window : List Packet) : StatFeatures :=
  if packet_window = [] then
    { mean_packet_size := 0, std_sq_packet_size := 0, min_packet_size := 0
      max_packet_size := 0, packet_count := 0, unique_dst_ports := 0
      dst_ports_sample := [] }
  else
    let sizes := packet_window.map (fun p => p.packet_size.getD 0)
    let ports := packet_window.filterMap
      (fun p => p.dst_port.bind (fun d => if d = 0 then none else some d))
    { mean_packet_size := meanScore sizes
      std_sq_packet_size := meanScore (sizes.map (fun x => x ^ 2)) - (meanScore sizes) ^ 2
      min_packet_size := listMin sizes
      max_packet_size := listMax sizes
      packet_count := packet_window.length
      unique_dst_ports := ports.dedup.length
      dst_ports_sample := ports }

/-- The flow key (src_ip, dst_ip, protocol, dst_port) with the source's
lookup defaults. -/
def flowKey (pkt : Packet) : String × String × String × Int :=
  (pkt.src_ip.getD "", pkt.dst_ip.getD "", pkt.protocol.getD "", pkt.dst_port.getD 0)

/-- Per-flow mutable state (the defaultdict value in
`FeatureExtractionService.__init__`). -/
structure FlowState where
  packet_count : Nat := 0
  byte_count : ℚ := 0
  start_time : Option ℚ := none
  last_time : Option ℚ := none
  packets : List Packet := []
deriving Repr, DecidableEq

abbrev FlowTable := List ((String × String × String × Int) × FlowState)

/-- defaultdict lookup: an absent key denotes the fresh default state. -/
def lookupFlow (tbl : FlowTable) (k : String × String × String × Int) : FlowState :=
  match tbl with
  | [] => {}
  | (k', s) :: rest => if k' = k then s else lookupFlow rest k

/-- Store the (possibly fresh) state back under its key, keeping table
order. -/
def insertFlow (tbl : FlowTable) (k : String × String × String × Int)
    (s : FlowState) : FlowTable :=
  match tbl with
  | [] => [(k, s)]
  | (k', s') :: rest => if k' = k then (k, s) :: rest else (k', s') :: insertFlow rest k s

/-- `FeatureExtractionService._cleanup_old_flows`: drop each flow whose
last-seen time is truthy and older than the cutoff (a `none` last-seen is
falsy and keeps the flow). -/
def cleanup_old_flows (tbl : FlowTable) (cutoff : ℚ) : FlowTable :=
  tbl.filter (fun e =>
    match e.2.last_time with
    | some lt => if lt < cutoff then false else true
    | none => true)

/-- The per-flow feature dict of `extract_flow_features`. -/
structure FlowFeatures where
  flow_duration : ℚ
  flow_packet_count : Nat
  flow_byte_count : ℚ
  flow_packets_per_second : ℚ
  flow_bytes_per_second : ℚ
deriving Repr, DecidableEq

/-- `FeatureExtractionService.extract_flow_features` (lines 70-107): update
the flow state for the packet's key, compute duration (0 replaced by
0.001), rates, then run the opportunistic one-hour cleanup on the updated
table.  `now` is the wall-clock used both for the missing-timestamp default
and for the cleanup cutoff. -/
def extract_flow_features (tbl : FlowTable) (pkt : Packet) (now : ℚ) :
    FlowFeatures × FlowTable :=
  let k := flowKey pkt
  let fl := lookupFlow tbl k
  let current_time := pkt.timestamp.getD now
  let start_time := fl.start_time.getD current_time
  let fl' : FlowState :=
    { packet_count := fl.packet_count + 1
      byte_count := fl.byte_count + pkt.packet_size.getD 0
      start_time := some start_time
      last_time := some current_time
      packets := fl.packets ++ [pkt] }
  let duration0 := current_time - start_time
  let duration := if duration0 = 0 then 1/1000 else duration0
  let features : FlowFeatures :=
    { flow_duration := duration
      flow_packet_count := fl'.packet_count
      flow_byte_count := fl'.byte_count
      flow_packets_per_second := (fl'.packet_count : ℚ) / duration
      flow_bytes_per_second := fl'.byte_count / duration }
  (features, cleanup_old_flows (insertFlow tbl k fl') (now - 3600))

/-- The mutable state of a `FeatureExtractionService` instance. -/
structure ExtractorState where
  window_size : Nat := FEATURE_WINDOW_SIZE
  packet_buffer : List Packet := []
  flow_stats : FlowTable := []
deriving Repr, DecidableEq

/-- The three feature groups merged by `extract_all_features` (the final
key-sorted numeric flattening carries exactly the numeric fields of these
records and is not needed by any property below). -/
structure AllFeatures where
  basic : BasicFeatures
  statistical : StatFeatures
  flow : FlowFeatures
deriving Repr, DecidableEq

/-- `FeatureExtractionService.extract_all_features` (lines 109-139): append
the packet to the bounded FIFO buffer (evicting the oldest element past
capacity), then compute the window statistics over the updated buffer and
the flow features. -/
def extract_all_features (st : ExtractorState) (pkt : Packet) (now : ℚ) :
    AllFeatures × ExtractorState :=
  let basic := extract_basic_features pkt
  let buf0 := st.packet_buffer ++ [pkt]
  let buf := if buf0.length > st.window_size then buf0.tail else buf0
  let stat := extract_statistical_features buf
  let fr := extract_flow_features st.flow_stats pkt now
  ({ basic := basic, statistical := stat, flow := fr.1 },
   { st with packet_buffer := buf, flow_stats := fr.2 })

/-! ### Alert manager (src/backend/app/services/alert_manager.py) -/

/-- The rate-limiter table: source address to (minute marker, count). -/
abbrev RateLimiterTable := List (String × Int × Nat)

def lookupLimiter (tbl : RateLimiterTable) (ip : String) : Option (Int × Nat) :=
  match tbl with
  | [] => none
  | (ip', e) :: rest => if ip' = ip then some e else lookupLimiter rest ip

def insertLimiter (tbl : RateLimiterTable) (ip : String) (e : Int × Nat) :
    RateLimiterTable :=
  match tbl with
  | [] => [(ip, e)]
  | (ip', e') :: rest =>
    if ip' = ip then (ip, e) :: rest else (ip', e') :: insertLimiter rest ip e

/-- `AlertManager._check_rate_limit` (lines 65-88): create the bucket for a
new source with the current minute and count 0; reset the bucket when its
minute differs from the current minute; refuse once the count has reached
the limit, otherwise increment and accept.  Returns the verdict and the
updated table. -/
def check_rate_limit (tbl : RateLimiterTable) (ip : String) (current_minute : Int)
    (max_alerts : Nat) : Bool × RateLimiterTable :=
  let e := (lookupLimiter tbl ip).getD (current_minute, 0)
  let e' := if e.1 ≠ current_minute then (current_minute, 0) else e
  if e'.2 ≥ max_alerts then (false, insertLimiter tbl ip e')
  else (true, insertLimiter tbl ip (e'.1, e'.2 + 1))

/-- `AlertManager._determine_alert_type`. -/
def determine_alert_type (res : DetectionResult) : String :=
  if res.signature_match then "known_attack"
  else if res.anomaly_score > 7/10 then "zero_day"
  else "suspicious"

/-- Two-decimal rendering of a score, mirroring the `:.2f` format used in
the description templates (round to the nearest hundredth; scores here are
nonnegative). -/
def formatScore2 (q : ℚ) : String :=
  let n : Int := ⌊q * 100 + 1/2⌋
  let frac := (n % 100).toNat
  toString (n / 100) ++ "." ++ (if frac < 10 then "0" ++ toString frac else toString frac)

/-- `AlertManager._generate_description` (lines 99-113): a signature hit is
described with `detection_result.get('signature_name', 'unknown signature')`
— the default fires whenever the result carries no `signature_name` key. -/
def generate_description (res : DetectionResult) : String :=
  if res.signature_match then
    "Signature-based detection: " ++ res.signature_name.getD "unknown signature"
      ++ " (confidence: " ++ formatScore2 res.threat_score ++ ")"
  else if res.detection_method = "ml" then
    "ML-based detection: Anomaly detected (score: " ++ formatScore2 res.threat_score
      ++ ", severity: " ++ res.severity ++ ")"
  else if res.detection_method = "hybrid" then
    "Hybrid detection: Combined signature and ML detection (score: "
      ++ formatScore2 res.threat_score ++ ")"
  else
    "Network anomaly detected (score: " ++ formatScore2 res.threat_score
      ++ ", severity: " ++ res.severity ++ ")"

/-- The persisted alert row (app/models.py Alert, fields set by
`create_alert`; the wall-clock timestamp and database id are omitted). -/
structure AlertRecord where
  severity : String
  alert_type : String
  source_ip : String
  destination_ip : String
  protocol : String
  description : String
  threat_score : ℚ
  signature_match : Bool
  ml_prediction : ℚ
  hybrid_score : ℚ
  detection_method : String
  anomaly_score : ℚ
  resolved : Bool
deriving Repr, DecidableEq

/-- `AlertManager.create_alert` (lines 20-63): consult the rate limiter for
the result's source address (default 'unknown'); when refused return `none`
without persisting and without touching the alert counter; otherwise build
and persist the alert and bump the counter.  State is (limiter table, alert
count); `current_minute` is the wall clock. -/
def create_alert (tbl : RateLimiterTable) (alert_count : Nat) (current_minute : Int)
    (max_alerts : Nat) (res : DetectionResult) :
    Option AlertRecord × RateLimiterTable × Nat :=
  let ip := res.source_ip.getD "unknown"
  let c := check_rate_limit tbl ip current_minute max_alerts
  if c.1 then
    (some { severity := res.severity
            alert_type := determine_alert_type res
            source_ip := ip
            destination_ip := res.destination_ip.getD "unknown"
            protocol := res.protocol.getD "unknown"
            description := generate_description res
            threat_score := res.threat_score
            signature_match := res.signature_match
            ml_prediction := res.ml_prediction
            hybrid_score := res.hybrid_score
            detection_method := res.detection_method
            anomaly_score := res.anomaly_score
            resolved := false },
     c.2, alert_count + 1)
  else (none, c.2, alert_count)

/-- The limiter/counter state after `n` successive `create_alert` calls for
the same detection result in the same wall-clock minute, starting from an
empty limiter table. -/
def alertIter (res : DetectionResult) (current_minute : Int) (max_alerts : Nat)
    (cnt : Nat) : Nat → RateLimiterTable × Nat
  | 0 => ([], cnt)
  | n + 1 =>
    let p := alertIter res current_minute max_alerts cnt n
    let c := create_alert p.1 p.2 current_minute max_alerts res
    (c.2.1, c.2.2)

/-- Character-list versions of "needle occurs in haystack", used to state
that a description does or does not mention a rule name. -/
def leadsWith : List Char → List Char → Bool
  | [], _ => true
  | _ :: _, [] => false
  | a :: as, b :: bs => a = b && leadsWith as bs

def containsRun (needle : List Char) : List Char → Bool
  | [] => leadsWith needle []
  | b :: bs => leadsWith needle (b :: bs) || containsRun needle bs

/-! ### Concrete test inputs shared by the theorems below -/

/-- A packet matching the 'port_scan' rule: well-known port, small size. -/
def pktPortScan : Packet := { dst_port := some 80, packet_size := some 50 }

/-- A packet matching only the 'large_packet' rule (confidence 0.6, below
the default tier-1 threshold 0.7): exercises tier 2 with a low-confidence
signature match. -/
def pktLarge : Packet :=
  { dst_port := some 8080, packet_size := some 2000, protocol := some "TCP" }

/-- First packet of the two-packet flow of the flow-rate property. -/
def pktFlow1 : Packet :=
  { src_ip := some "192.168.1.5", dst_ip := some "10.0.0.1", protocol := some "TCP"
    dst_port := some 80, packet_size := some 100, timestamp := some 0 }

/-- Second packet of the two-packet flow, 2 seconds later. -/
def pktFlow2 : Packet :=
  { src_ip := some "192.168.1.5", dst_ip := some "10.0.0.1", protocol := some "TCP"
    dst_port := some 80, packet_size := some 100, timestamp := some 2 }

/-- A signature rule that always matches at confidence 0.75: the mock used
by the spec's conflict-resolution scenario (the fixed rule set has no rule
of confidence 0.75, the scenario stipulates one below its 0.8 tier-1
threshold). -/
def mockConflictRule : SigRule :=
  { name := "mock_sig", pattern := fun _ => true, severity := "high", confidence := 3/4 }

/-! ### Helper lemmas -/

/-- First-match semantics of the signature scan: if nothing before `r`
matches and `r` matches, the scan returns `r`'s data. -/
theorem check_signatures_first (pre post : List SigRule) (r : SigRule) (pkt : Packet)
    (hpre : ∀ r' ∈ pre, r'.pattern pkt = false) (hr : r.pattern pkt = true) :
    check_signatures (pre ++ r :: post) pkt = (true, r.confidence, some r.name) := by
  induction pre with
  | nil => simp [check_signatures, hr]
  | cons p rest ih =>
    have hp : p.pattern pkt = false := hpre p (List.mem_cons_self p rest)
    simp only [List.cons_append, check_signatures, hp]
    simp only [Bool.false_eq_true, if_false]
    exact ih (fun r' hr' => hpre r' (List.mem_cons_of_mem p hr'))

/-- Tier-1 branch of `detect`: a signature match at or above the
signature-confidence threshold short-circuits to `tier1Result`. -/
theorem detect_tier1 {sigT hybT c : ℚ} {rules : List SigRule} {pkt : Packet}
    {nm : Option String} {mlOuts anomOuts : List (Option ℚ)}
    (hcs : check_signatures rules pkt = (true, c, nm)) (hc : c ≥ sigT) :
    detect sigT hybT rules pkt mlOuts anomOuts = tier1Result c := by
  unfold detect
  rw [hcs]
  simp [hc]

/-- Tier-2 branch of `detect`: with no signature match, or one below the
threshold, `detect` is the tier-2 fusion. -/
theorem detect_tier2 {sigT hybT c : ℚ} {rules : List SigRule} {pkt : Packet}
    {sm : Bool} {nm : Option String} {mlOuts anomOuts : List (Option ℚ)}
    (hcs : check_signatures rules pkt = (sm, c, nm)) (hno : ¬(sm = true ∧ c ≥ sigT)) :
    detect sigT hybT rules pkt mlOuts anomOuts = tier2Result sm c mlOuts anomOuts hybT := by
  unfold detect
  rw [hcs]
  simp only []
  rw [if_neg hno]

/-- The fused score is what `tier2Result` stores in `hybrid_score`. -/
theorem tier2Result_hybrid_score (sm : Bool) (c : ℚ) (mlOuts anomOuts : List (Option ℚ))
    (hybT : ℚ) :
    (tier2Result sm c mlOuts anomOuts hybT).hybrid_score = fusedScore sm c mlOuts anomOuts := by
  unfold tier2Result
  by_cases h : fusedScore sm c mlOuts anomOuts ≥ hybT <;> simp [h]

/-- Collecting the successful outcomes of already-successful outcomes is the
identity. -/
theorem collectScores_map_some (l : List ℚ) : collectScores (l.map some) = l := by
  induction l with
  | nil => rfl
  | cons x xs ih => simp [collectScores] at ih ⊢

theorem collectScores_nil : collectScores [] = [] := rfl

theorem collectScores_some (x : ℚ) (l : List (Option ℚ)) :
    collectScores (some x :: l) = x :: collectScores l := rfl

theorem collectScores_none (l : List (Option ℚ)) :
    collectScores (none :: l) = collectScores l := rfl

theorem meanScore_singleton (x : ℚ) : meanScore [x] = x := by
  simp [meanScore]

/-! ### Claim theorems -/

/-- C2: when the first matching signature rule has confidence at or above
the signature-confidence threshold, `detect` returns immediately with
malicious = true, method = 'signature', threat score = confidence = the
rule's confidence, severity banded 0.8/0.6, and the result is independent
of every oracle outcome (no oracle is queried in this branch). -/
theorem detect_tier1_short_circuit (sigT hybT : ℚ) (pre post : List SigRule)
    (r : SigRule) (pkt : Packet) (mlOuts anomOuts : List (Option ℚ))
    (hpre : ∀ r' ∈ pre, r'.pattern pkt = false) (hr : r.pattern pkt = true)
    (hc : r.confidence ≥ sigT) :
    detect sigT hybT (pre ++ r :: post) pkt mlOuts anomOuts =
      { is_malicious := true
        threat_score := r.confidence
        severity := if r.confidence ≥ 8/10 then "high"
                    else if r.confidence ≥ 6/10 then "medium" else "low"
        detection_method := "signature"
        signature_match := true
        confidence := r.confidence } ∧
    detect sigT hybT (pre ++ r :: post) pkt mlOuts anomOuts =
      detect sigT hybT (pre ++ r :: post) pkt [] [] := by
  have hcs := check_signatures_first pre post r pkt hpre hr
  refine ⟨?_, ?_⟩
  · rw [detect_tier1 hcs hc]
    rfl
  · rw [detect_tier1 hcs hc, detect_tier1 hcs hc]

/-- C2 witness: a small packet to port 80 trips 'port_scan' (confidence 0.8,
at the default threshold 0.7) and short-circuits regardless of the oracle
outcomes supplied. -/
theorem detect_tier1_short_circuit_witness :
    detect (7/10) (65/100)
        ([] ++ portScanRule :: [synFloodRule, largePacketRule, suspiciousPortRule, icmpFloodRule])
        pktPortScan [some (9/10), none] [some (1/2)] =
      { is_malicious := true
        threat_score := portScanRule.confidence
        severity := if portScanRule.confidence ≥ 8/10 then "high"
                    else if portScanRule.confidence ≥ 6/10 then "medium" else "low"
        detection_method := "signature"
        signature_match := true
        confidence := portScanRule.confidence } ∧
    detect (7/10) (65/100)
        ([] ++ portScanRule :: [synFloodRule, largePacketRule, suspiciousPortRule, icmpFloodRule])
        pktPortScan [some (9/10), none] [some (1/2)] =
      detect (7/10) (65/100)
        ([] ++ portScanRule :: [synFloodRule, largePacketRule, suspiciousPortRule, icmpFloodRule])
        pktPortScan [] [] :=
  detect_tier1_short_circuit (7/10) (65/100) [] [synFloodRule, largePacketRule, suspiciousPortRule, icmpFloodRule]
    portScanRule pktPortScan [some (9/10), none] [some (1/2)]
    (by intro r' hr'; simp at hr') (by decide) (by norm_num [portScanRule])

/-- C7: every packet with destination port in 1-1023 and size < 100 matches
the 'port_scan' rule, which is first in registration order; and in general
the first rule in registration order whose predicate holds determines the
returned (match, confidence, name) triple. -/
theorem port_scan_first_match (pkt : Packet) (d : Int)
    (hd : pkt.dst_port = some d) (h1 : 1 ≤ d) (h2 : d ≤ 1023)
    (hs : pkt.packet_size.getD 0 < 100) :
    check_signatures signatures pkt = (true, 8/10, some "port_scan") ∧
    ∀ (pre post : List SigRule) (r : SigRule) (q : Packet),
      (∀ r' ∈ pre, r'.pattern q = false) → r.pattern q = true →
      check_signatures (pre ++ r :: post) q = (true, r.confidence, some r.name) := by
  refine ⟨?_, fun pre post r q hpre hr => check_signatures_first pre post r q hpre hr⟩
  have hpat : portScanRule.pattern pkt = true := by
    simp only [portScanRule, hd]
    simp only [Bool.and_eq_true, decide_eq_true_eq]
    exact ⟨⟨h1, by omega⟩, hs⟩
  show check_signatures
      ([] ++ portScanRule :: [synFloodRule, largePacketRule, suspiciousPortRule, icmpFloodRule]) pkt =
    (true, portScanRule.confidence, some portScanRule.name)
  exact check_signatures_first [] [synFloodRule, largePacketRule, suspiciousPortRule, icmpFloodRule]
    portScanRule pkt (by intro r' hr'; simp at hr') hpat

/-- C7 witness: destination port 443, size 60. -/
theorem port_scan_first_match_witness :
    check_signatures signatures { dst_port := some 443, packet_size := some 60 } =
      (true, 8/10, some "port_scan") :=
  (port_scan_first_match { dst_port := some 443, packet_size := some 60 } 443
    rfl (by norm_num) (by norm_num) (by norm_num)).1

/-- C3 counterexample: a tier-2 invocation (the 'large_packet' signature
matches at 0.6, below the 0.7 tier-1 threshold) in which the signature
matched but the fused score 0.45 stays below the 0.65 fusion threshold:
the result's detection method is 'none', not 'hybrid', refuting
"detection_method = 'hybrid' if a signature matched". -/
theorem tier2_method_claim_cex :
    check_signatures signatures pktLarge = (true, 6/10, some "large_packet") ∧
    ¬((6:ℚ)/10 ≥ 7/10) ∧
    (detect (7/10) (65/100) signatures pktLarge [] []).signature_match = true ∧
    (detect (7/10) (65/100) signatures pktLarge [] []).hybrid_score = 9/20 ∧
    (detect (7/10) (65/100) signatures pktLarge [] []).is_malicious = false ∧
    (detect (7/10) (65/100) signatures pktLarge [] []).detection_method = "none" ∧
    (detect (7/10) (65/100) signatures pktLarge [] []).detection_method ≠ "hybrid" := by
  norm_num [detect, tier2Result, fusedScore, meanScore, collectScores, check_signatures,
    signatures, portScanRule, synFloodRule, largePacketRule, suspiciousPortRule,
    icmpFloodRule, pktLarge]
  decide

/-- C3 (amended): in every tier-2 invocation of `detect`, malicious holds
exactly when the fused score reaches the hybrid-fusion threshold;
the method is 'hybrid' or 'ml' (by signature match) only when malicious and
'none' otherwise; severity is banded by the fused score only when malicious
and stays 'low' otherwise; confidence equals the fused score. -/
theorem tier2_final_decision (sigT hybT : ℚ) (rules : List SigRule) (pkt : Packet)
    (sm : Bool) (c : ℚ) (nm : Option String) (mlOuts anomOuts : List (Option ℚ))
    (hcs : check_signatures rules pkt = (sm, c, nm)) (hno : ¬(sm = true ∧ c ≥ sigT)) :
    ((detect sigT hybT rules pkt mlOuts anomOuts).is_malicious = true ↔
      (detect sigT hybT rules pkt mlOuts anomOuts).hybrid_score ≥ hybT) ∧
    (detect sigT hybT rules pkt mlOuts anomOuts).detection_method =
      (if (detect sigT hybT rules pkt mlOuts anomOuts).is_malicious = true then
        (if sm = true then "hybrid" else "ml") else "none") ∧
    (detect sigT hybT rules pkt mlOuts anomOuts).severity =
      (if (detect sigT hybT rules pkt mlOuts anomOuts).is_malicious = true then
        severityBand (detect sigT hybT rules pkt mlOuts anomOuts).hybrid_score else "low") ∧
    (detect sigT hybT rules pkt mlOuts anomOuts).confidence =
      (detect sigT hybT rules pkt mlOuts anomOuts).hybrid_score ∧
    (detect sigT hybT rules pkt mlOuts anomOuts).signature_match = sm := by
  rw [detect_tier2 hcs hno]
  unfold tier2Result
  by_cases h : fusedScore sm c mlOuts anomOuts ≥ hybT <;> simp [h]

/-- C3 witness: the amended statement at the concrete tier-2 invocation of
the counterexample. -/
theorem tier2_final_decision_witness :
    ((detect (7/10) (65/100) signatures pktLarge [] []).is_malicious = true ↔
      (detect (7/10) (65/100) signatures pktLarge [] []).hybrid_score ≥ 65/100) ∧
    (detect (7/10) (65/100) signatures pktLarge [] []).detection_method =
      (if (detect (7/10) (65/100) signatures pktLarge [] []).is_malicious = true then
        (if true = true then "hybrid" else "ml") else "none") ∧
    (detect (7/10) (65/100) signatures pktLarge [] []).severity =
      (if (detect (7/10) (65/100) signatures pktLarge [] []).is_malicious = true then
        severityBand (detect (7/10) (65/100) signatures pktLarge [] []).hybrid_score else "low") ∧
    (detect (7/10) (65/100) signatures pktLarge [] []).confidence =
      (detect (7/10) (65/100) signatures pktLarge [] []).hybrid_score ∧
    (detect (7/10) (65/100) signatures pktLarge [] []).signature_match = true :=
  tier2_final_decision (7/10) (65/100) signatures pktLarge true (6/10) (some "large_packet")
    [] []
    (by norm_num [check_signatures, signatures, portScanRule, synFloodRule, largePacketRule,
      suspiciousPortRule, icmpFloodRule, pktLarge])
    (by norm_num)

/-- C1 counterexample: the scenario (signature threshold 0.8, mock signature
match at 0.75, supervised mean 0.1) at anomaly score 0: the code's fused
score is (0.75 + max(0.06, 0.375))/2 = 0.5625, not the claimed
(0.75 + 0.06)/2 = 0.405 — the 0.5·0.75 floor fires before the dampening
average. -/
theorem conflict_dampening_claim_cex :
    check_signatures [mockConflictRule] pktPortScan = (true, 3/4, some "mock_sig") ∧
    meanScore (collectScores [some (1/10)]) = 1/10 ∧
    meanScore (collectScores [some 0]) = 0 ∧
    (detect (8/10) (65/100) [mockConflictRule] pktPortScan [some (1/10)] [some 0]).hybrid_score
      = 9/16 ∧
    (detect (8/10) (65/100) [mockConflictRule] pktPortScan [some (1/10)] [some 0]).hybrid_score
      ≠ (3/4 + (6/10 * (1/10) + 4/10 * 0)) / 2 := by
  norm_num [detect, tier2Result, fusedScore, check_signatures, mockConflictRule,
    collectScores_some, collectScores_nil, meanScore_singleton]

/-- C1 (amended): in the tier-2 conflict-resolution scenario with signature
threshold 0.8, a signature match at confidence 0.75 and supervised oracles
averaging to 0.1, the fused score is (0.75 + max(0.6·0.1 + 0.4·a, 0.375))/2
for every anomaly mean a in [0, 1]: the weighted sum is floored at
0.5·0.75 = 0.375 before the dampening average with the signature
confidence. -/
theorem conflict_dampening_scenario (hybT : ℚ) (rules : List SigRule) (pkt : Packet)
    (nm : Option String) (mlOuts anomOuts : List (Option ℚ)) (a : ℚ)
    (hcs : check_signatures rules pkt = (true, 3/4, nm))
    (hml : meanScore (collectScores mlOuts) = 1/10)
    (han : meanScore (collectScores anomOuts) = a)
    (ha0 : 0 ≤ a) (ha1 : a ≤ 1) :
    (detect (8/10) hybT rules pkt mlOuts anomOuts).hybrid_score =
      (3/4 + max (6/10 * (1/10) + 4/10 * a) (3/8)) / 2 := by
  rw [detect_tier2 hcs (by norm_num), tier2Result_hybrid_score]
  unfold fusedScore
  rw [hml, han]
  norm_num

/-- C1 witness: the amended formula at anomaly mean 1/2. -/
theorem conflict_dampening_scenario_witness :
    (detect (8/10) (65/100) [mockConflictRule] pktPortScan [some (1/10)] [some (1/2)]).hybrid_score
      = (3/4 + max (6/10 * (1/10) + 4/10 * (1/2)) (3/8)) / 2 :=
  conflict_dampening_scenario (65/100) [mockConflictRule] pktPortScan (some "mock_sig")
    [some (1/10)] [some (1/2)] (1/2)
    (by norm_num [check_signatures, mockConflictRule])
    (by rw [collectScores_some, collectScores_nil, meanScore_singleton])
    (by rw [collectScores_some, collectScores_nil, meanScore_singleton])
    (by norm_num) (by norm_num)

/-- C8: a feature-extraction error is contained by `detect_packet`, which
returns a non-malicious zero-score 'low' result carrying the error instead
of propagating; and a failing oracle is excluded from detection rather than
contributing a zero score: the detection result equals the one computed
from the successful oracle outcomes alone, and the mean of one success at
1 next to one failure is 1 (not 1/2). -/
theorem detect_packet_failure_semantics (sigT hybT : ℚ) (rules : List SigRule)
    (pkt : Packet) (e : String) (v : List ℚ) (mlOuts anomOuts : List (Option ℚ)) :
    (detect_packet sigT hybT rules (Except.error e) pkt mlOuts anomOuts).is_malicious = false ∧
    (detect_packet sigT hybT rules (Except.error e) pkt mlOuts anomOuts).threat_score = 0 ∧
    (detect_packet sigT hybT rules (Except.error e) pkt mlOuts anomOuts).severity = "low" ∧
    (detect_packet sigT hybT rules (Except.error e) pkt mlOuts anomOuts).error = some e ∧
    detect_packet sigT hybT rules (Except.ok v) pkt mlOuts anomOuts =
      detect_packet sigT hybT rules (Except.ok v) pkt
        ((collectScores mlOuts).map some) ((collectScores anomOuts).map some) ∧
    meanScore (collectScores [some 1, none]) = 1 := by
  refine ⟨rfl, rfl, rfl, rfl, ?_, ?_⟩
  · show detect sigT hybT rules pkt mlOuts anomOuts =
      detect sigT hybT rules pkt ((collectScores mlOuts).map some) ((collectScores anomOuts).map some)
    unfold detect tier2Result fusedScore
    rw [collectScores_map_some, collectScores_map_some]
  · rw [collectScores_some, collectScores_none, collectScores_nil, meanScore_singleton]

/-- C4 counterexample: for the claim's exact input — two packets of size 100
in the same flow, 2 seconds apart — the second call yields
bytes-per-second = (100+100)/2 = 100, not the claimed 50 (packets-per-second
= 1 does hold). -/
theorem flow_rate_claim_cex :
    (extract_flow_features (extract_flow_features [] pktFlow1 0).2 pktFlow2 2).1.flow_packets_per_second = 1 ∧
    (extract_flow_features (extract_flow_features [] pktFlow1 0).2 pktFlow2 2).1.flow_bytes_per_second = 100 ∧
    (extract_flow_features (extract_flow_features [] pktFlow1 0).2 pktFlow2 2).1.flow_bytes_per_second ≠ 50 := by
  norm_num [extract_flow_features, flowKey, lookupFlow, insertFlow, cleanup_old_flows,
    pktFlow1, pktFlow2]

/-- C4 (amended): for a flow consisting of exactly two packets of size 100
whose timestamps are 2 seconds apart, the flow features computed on the
second packet satisfy packets-per-second = 2/2 = 1 and bytes-per-second =
200/2 = 100. -/
theorem flow_rate_two_packets (p q : Packet) (t : ℚ)
    (hk : flowKey q = flowKey p)
    (hs1 : p.packet_size = some 100) (hs2 : q.packet_size = some 100)
    (ht1 : p.timestamp = some t) (ht2 : q.timestamp = some (t + 2)) :
    (extract_flow_features (extract_flow_features [] p t).2 q (t + 2)).1.flow_packets_per_second = 1 ∧
    (extract_flow_features (extract_flow_features [] p t).2 q (t + 2)).1.flow_bytes_per_second = 100 := by
  have hstep1 : (extract_flow_features [] p t).2 =
      [(flowKey p,
        { packet_count := 1, byte_count := 100, start_time := some t,
          last_time := some t, packets := [p] })] := by
    simp only [extract_flow_features, lookupFlow, insertFlow, cleanup_old_flows, hs1, ht1]
    simp only [Option.getD_some, Option.getD_none]
    norm_num [FlowState.mk.injEq]
  rw [hstep1]
  simp only [extract_flow_features, lookupFlow, insertFlow, cleanup_old_flows, hs2, ht2, hk]
  simp

/-- C4 witness: the amended rates at the concrete two-packet flow. -/
theorem flow_rate_two_packets_witness :
    (extract_flow_features (extract_flow_features [] pktFlow1 0).2 pktFlow2 (0 + 2)).1.flow_packets_per_second = 1 ∧
    (extract_flow_features (extract_flow_features [] pktFlow1 0).2 pktFlow2 (0 + 2)).1.flow_bytes_per_second = 100 :=
  flow_rate_two_packets pktFlow1 pktFlow2 0 rfl rfl rfl rfl (by norm_num [pktFlow2])

/-- C9: after `extract_all_features` the recent-packet window holds at most
`window_size` packets, its newest element is the current packet, a call
below capacity only appends, a call at capacity evicts exactly the oldest
(head) element, and the window statistics of the call are computed over the
updated window that already includes the current packet. -/
theorem window_fifo_invariant (st : ExtractorState) (pkt : Packet) (now : ℚ)
    (hlen : st.packet_buffer.length ≤ st.window_size) (hws : 0 < st.window_size) :
    (extract_all_features st pkt now).2.packet_buffer.length ≤ st.window_size ∧
    (extract_all_features st pkt now).2.packet_buffer.getLast? = some pkt ∧
    (st.packet_buffer.length < st.window_size →
      (extract_all_features st pkt now).2.packet_buffer = st.packet_buffer ++ [pkt]) ∧
    (st.packet_buffer.length = st.window_size →
      (extract_all_features st pkt now).2.packet_buffer = st.packet_buffer.tail ++ [pkt]) ∧
    (extract_all_features st pkt now).1.statistical =
      extract_statistical_features (extract_all_features st pkt now).2.packet_buffer := by
  simp only [extract_all_features]
  by_cases h : (st.packet_buffer ++ [pkt]).length > st.window_size
  · simp only [h, if_pos]
    have hlen' : st.packet_buffer.length = st.window_size := by
      simp only [List.length_append, List.length_singleton] at h
      omega
    have hne : st.packet_buffer ≠ [] := by
      intro hnil
      rw [hnil] at hlen'
      simp at hlen'
      omega
    obtain ⟨a, l, hb⟩ := List.exists_cons_of_ne_nil hne
    refine ⟨?_, ?_, ?_, ?_, trivial⟩
    · rw [hb]
      rw [hb] at hlen'
      simp only [List.cons_append, List.tail_cons, List.length_append,
        List.length_singleton]
      simp only [List.length_cons] at hlen'
      omega
    · rw [hb]
      simp only [List.cons_append, List.tail_cons]
      exact List.getLast?_concat _
    · intro hlt
      omega
    · intro _
      rw [hb]
      simp
  · simp only [h, if_neg, if_false]
    push_neg at h
    refine ⟨?_, ?_, ?_, ?_, trivial⟩
    · simpa using h
    · exact List.getLast?_concat _
    · intro _
      trivial
    · intro heq
      simp only [List.length_append, List.length_singleton] at h
      omega

/-- C9 witness: a window of capacity 2 already holding two packets evicts
its head when a third arrives. -/
theorem window_fifo_invariant_witness :
    (extract_all_features
        { window_size := 2, packet_buffer := [pktFlow1, pktFlow2], flow_stats := [] }
        pktPortScan 0).2.packet_buffer = [pktFlow2, pktPortScan] ∧
    (extract_all_features
        { window_size := 2, packet_buffer := [pktFlow1, pktFlow2], flow_stats := [] }
        pktPortScan 0).2.packet_buffer.length ≤ 2 ∧
    (extract_all_features
        { window_size := 2, packet_buffer := [pktFlow1, pktFlow2], flow_stats := [] }
        pktPortScan 0).1.statistical =
      extract_statistical_features
        (extract_all_features
          { window_size := 2, packet_buffer := [pktFlow1, pktFlow2], flow_stats := [] }
          pktPortScan 0).2.packet_buffer :=
  have h := window_fifo_invariant
    { window_size := 2, packet_buffer := [pktFlow1, pktFlow2], flow_stats := [] }
    pktPortScan 0 (by norm_num) (by norm_num)
  ⟨h.2.2.2.1 rfl, h.1, h.2.2.2.2⟩

/-- The limiter table and alert counter after `k ≤ maxAlerts` calls in one
minute: the source's bucket holds the minute marker and count `k`, and `k`
alerts were persisted. -/
theorem alertIter_closed (res : DetectionResult) (ip : String) (m : Int)
    (maxA cnt : Nat) (hres : res.source_ip = some ip) :
    ∀ k, k ≤ maxA → alertIter res m maxA cnt k =
      (if k = 0 then [] else [(ip, m, k)], cnt + k) := by
  intro k
  induction k with
  | zero =>
    intro _
    simp [alertIter]
  | succ n ih =>
    intro hk
    have hlt : n < maxA := hk
    rw [alertIter, ih (Nat.le_of_lt hlt)]
    by_cases hn0 : n = 0
    · subst hn0
      simp [create_alert, check_rate_limit, lookupLimiter, insertLimiter, hres,
        Nat.not_le.mpr hlt]
    · simp [hn0, create_alert, check_rate_limit, lookupLimiter, insertLimiter, hres,
        Nat.not_le.mpr hlt]
      omega

/-- C5: for a fixed source address within one wall-clock minute, each of the
first N alert-creation calls passes the rate limiter (call k+1 succeeds for
every k < N), the (N+1)-th call returns none, persists nothing (the alert
counter stays cnt + N) and does not increment the bucket (still (m, N));
and as soon as the minute advances the bucket is reset before the check, so
the next call succeeds even though minute m was exhausted. -/
theorem rate_limiter_contract (res : DetectionResult) (ip : String) (m m' : Int)
    (N cnt k : Nat) (hres : res.source_ip = some ip) (hN : 0 < N) (hk : k < N)
    (hm : m' ≠ m) :
    (create_alert (alertIter res m N cnt k).1 (alertIter res m N cnt k).2 m N res).1.isSome = true ∧
    (create_alert (alertIter res m N cnt N).1 (alertIter res m N cnt N).2 m N res).1 = none ∧
    (create_alert (alertIter res m N cnt N).1 (alertIter res m N cnt N).2 m N res).2.2 = cnt + N ∧
    lookupLimiter (create_alert (alertIter res m N cnt N).1 (alertIter res m N cnt N).2 m N res).2.1 ip
      = some (m, N) ∧
    (create_alert (alertIter res m N cnt N).1 (alertIter res m N cnt N).2 m' N res).1.isSome = true := by
  have hNne : N ≠ 0 := Nat.pos_iff_ne_zero.mp hN
  rw [alertIter_closed res ip m N cnt hres k (Nat.le_of_lt hk),
    alertIter_closed res ip m N cnt hres N (Nat.le_refl N)]
  refine ⟨?_, ?_, ?_, ?_, ?_⟩
  · by_cases hk0 : k = 0
    · simp [hk0, hNne, create_alert, check_rate_limit, lookupLimiter, insertLimiter, hres,
        Nat.not_le.mpr hk]
    · simp [hk0, hNne, create_alert, check_rate_limit, lookupLimiter, insertLimiter, hres,
        Nat.not_le.mpr hk]
  · simp [hNne, create_alert, check_rate_limit, lookupLimiter, insertLimiter, hres]
  · simp [hNne, create_alert, check_rate_limit, lookupLimiter, insertLimiter, hres]
  · simp [hNne, create_alert, check_rate_limit, lookupLimiter, insertLimiter, hres]
  · have hm2 : m ≠ m' := Ne.symm hm
    simp [hNne, create_alert, check_rate_limit, lookupLimiter, insertLimiter, hres, hm2,
      Nat.not_le.mpr hN]

/-- The detection result fed to the rate-limiter witness: fixed source
address, all other fields at their defaults. -/
def rlRes : DetectionResult := { source_ip := some "10.0.0.1" }

/-- C5 witness: N = 100, the 58th call (k = 57) passes, the 101st call in
the same minute is refused without persisting, and the first call of the
next minute passes. -/
theorem rate_limiter_contract_witness :
    (create_alert (alertIter rlRes 27000000 100 0 57).1 (alertIter rlRes 27000000 100 0 57).2
        27000000 100 rlRes).1.isSome = true ∧
    (create_alert (alertIter rlRes 27000000 100 0 100).1 (alertIter rlRes 27000000 100 0 100).2
        27000000 100 rlRes).1 = none ∧
    (create_alert (alertIter rlRes 27000000 100 0 100).1 (alertIter rlRes 27000000 100 0 100).2
        27000000 100 rlRes).2.2 = 0 + 100 ∧
    (create_alert (alertIter rlRes 27000000 100 0 100).1 (alertIter rlRes 27000000 100 0 100).2
        27000001 100 rlRes).1.isSome = true :=
  have h := rate_limiter_contract rlRes "10.0.0.1" 27000000 27000001 100 0 57 rfl
    (by norm_num) (by norm_num) (by norm_num)
  ⟨h.1, h.2.1, h.2.2.1, h.2.2.2.2⟩

/-- C6: the 'port_scan' signature fires and `check_signatures` reports the
rule name, but `detect` drops it (the result carries no `signature_name`
key), so `_generate_description`'s lookup falls back to
'unknown signature': the alert description for this signature detection
does not contain the matched rule's name, contradicting the documented
description format. -/
theorem signature_name_dropped :
    check_signatures signatures pktPortScan = (true, 8/10, some "port_scan") ∧
    (detect (7/10) (65/100) signatures pktPortScan [] []).signature_match = true ∧
    (detect (7/10) (65/100) signatures pktPortScan [] []).signature_name = none ∧
    generate_description (detect (7/10) (65/100) signatures pktPortScan [] []) =
      "Signature-based detection: unknown signature (confidence: 0.80)" ∧
    containsRun "port_scan".toList
      (generate_description (detect (7/10) (65/100) signatures pktPortScan [] [])).toList
      = false ∧
    ((create_alert [] 0 0 100
        { detect (7/10) (65/100) signatures pktPortScan [] [] with
          source_ip := some "192.168.1.100", destination_ip := some "10.0.0.1",
          protocol := some "TCP" }).1.map AlertRecord.description) =
      some "Signature-based detection: unknown signature (confidence: 0.80)" := by
  have hcs : check_signatures signatures pktPortScan = (true, 8/10, some "port_scan") := by
    norm_num [check_signatures, signatures, portScanRule, pktPortScan]
  have hdet : detect (7/10) (65/100) signatures pktPortScan [] [] = tier1Result (8/10) :=
    detect_tier1 hcs (by norm_num)
  have hdesc : generate_description (tier1Result (8/10)) =
      "Signature-based detection: unknown signature (confidence: 0.80)" := by
    simp only [generate_description, tier1Result, formatScore2]
    norm_num
    rfl
  refine ⟨hcs, ?_, ?_, ?_, ?_, ?_⟩
  · rw [hdet]
    rfl
  · rw [hdet]
    rfl
  · rw [hdet, hdesc]
  · rw [hdet, hdesc]
    decide
  · rw [hdet]
    simp only [create_alert, check_rate_limit, lookupLimiter, insertLimiter]
    norm_num
    simp only [generate_description, tier1Result, formatScore2]
    norm_num
    rfl

/-- C10: a tier-1 (high-confidence signature) detection leaves
`ml_prediction`, `anomaly_score` and `hybrid_score` at their initial 0.0
while `threat_score` is the signature confidence; any alert persisted from
such a result records hybrid_score = 0, different from its threat score
(the signature threshold being positive). -/
theorem tier1_zero_ml_fields (sigT hybT : ℚ) (rules : List SigRule) (pkt : Packet)
    (c : ℚ) (nm : Option String) (mlOuts anomOuts : List (Option ℚ))
    (tbl : RateLimiterTable) (cnt : Nat) (minute : Int) (maxA : Nat)
    (ipS ipD prot : Option String) (a : AlertRecord)
    (hcs : check_signatures rules pkt = (true, c, nm)) (hc : c ≥ sigT) (hT : 0 < sigT)
    (ha : (create_alert tbl cnt minute maxA
            { detect sigT hybT rules pkt mlOuts anomOuts with
              source_ip := ipS, destination_ip := ipD, protocol := prot }).1 = some a) :
    (detect sigT hybT rules pkt mlOuts anomOuts).ml_prediction = 0 ∧
    (detect sigT hybT rules pkt mlOuts anomOuts).anomaly_score = 0 ∧
    (detect sigT hybT rules pkt mlOuts anomOuts).hybrid_score = 0 ∧
    (detect sigT hybT rules pkt mlOuts anomOuts).threat_score = c ∧
    a.hybrid_score = 0 ∧ a.threat_score = c ∧ a.hybrid_score ≠ a.threat_score := by
  have hd := @detect_tier1 sigT hybT c rules pkt nm mlOuts anomOuts hcs hc
  rw [hd] at ha
  have hcne : c ≠ 0 := by
    intro h0
    rw [h0] at hc
    linarith
  simp only [create_alert] at ha
  by_cases hrl : (check_rate_limit tbl
      (({ tier1Result c with
          source_ip := ipS, destination_ip := ipD,
          protocol := prot } : DetectionResult).source_ip.getD "unknown") minute maxA).1 = true
  · rw [if_pos hrl] at ha
    have heq := Option.some.inj ha
    refine ⟨by rw [hd]; exact rfl, by rw [hd]; exact rfl, by rw [hd]; exact rfl,
      by rw [hd]; exact rfl, ?_, ?_, ?_⟩
    · rw [← heq]
      exact rfl
    · rw [← heq]
      exact rfl
    · rw [← heq]
      show ¬((0 : ℚ) = c)
      exact fun h0 => hcne h0.symm
  · rw [if_neg hrl] at ha
    exact absurd ha (by simp)

/-- The tier-1 detection result for the port-scan packet, augmented with the
caller's address fields before alert creation. -/
def c10Res : DetectionResult :=
  { detect (7/10) (65/100) signatures pktPortScan [] [] with
    source_ip := some "192.168.1.100", destination_ip := some "10.0.0.1",
    protocol := some "TCP" }

/-- Fallback record used only to extract the alert from the `Option`. -/
def c10DefaultAlert : AlertRecord :=
  { severity := "low", alert_type := "suspicious", source_ip := "unknown",
    destination_ip := "unknown", protocol := "unknown", description := "",
    threat_score := 0, signature_match := false, ml_prediction := 0, hybrid_score := 0,
    detection_method := "none", anomaly_score := 0, resolved := false }

/-- The alert persisted for the tier-1 port-scan detection. -/
def c10Alert : AlertRecord := (create_alert [] 0 0 100 c10Res).1.getD c10DefaultAlert

/-- C10 witness: at the concrete port-scan detection the ML fields stay 0,
the threat score is 0.8, and the persisted alert records hybrid score 0,
different from its threat score. -/
theorem tier1_zero_ml_fields_witness :
    (detect (7/10) (65/100) signatures pktPortScan [] []).hybrid_score = 0 ∧
    (detect (7/10) (65/100) signatures pktPortScan [] []).threat_score = 8/10 ∧
    c10Alert.hybrid_score = 0 ∧ c10Alert.threat_score = 8/10 ∧
    c10Alert.hybrid_score ≠ c10Alert.threat_score := by
  have hcs : check_signatures signatures pktPortScan = (true, 8/10, some "port_scan") := by
    norm_num [check_signatures, signatures, portScanRule, pktPortScan]
  have ha : (create_alert [] 0 0 100
      { detect (7/10) (65/100) signatures pktPortScan [] [] with
        source_ip := some "192.168.1.100", destination_ip := some "10.0.0.1",
        protocol := some "TCP" }).1 = some c10Alert := by
    simp only [c10Alert, c10Res]
    simp only [create_alert, check_rate_limit, lookupLimiter, insertLimiter]
    norm_num
  have h := tier1_zero_ml_fields (7/10) (65/100) signatures pktPortScan (8/10)
    (some "port_scan") [] [] [] 0 0 100 (some "192.168.1.100") (some "10.0.0.1")
    (some "TCP") c10Alert hcs (by norm_num) (by norm_num) ha
  exact ⟨h.2.2.1, h.2.2.2.1, h.2.2.2.2.1, h.2.2.2.2.2.1, h.2.2.2.2.2.2⟩
